import Mathlib

/-!
Verification of the audio-pipeline core of the AK-HD-Translated-Video
repository: the per-frame DSP stage (`src/core/audio/AudioProcessor.ts`),
the voice-activity detector (`src/core/audio/VAD.ts`) and the session
orchestrator (`src/core/stt/AudioSessionManager.ts`).

The TypeScript code is shallowly embedded: JavaScript numbers are modelled
by rationals (`ℚ`), with the IEEE special values `NaN`/`±∞` made explicit
through the `JSVal` type at the few points where the code can produce them
(division by a zero sample count).  Class instances become explicit state
records, and every method becomes a Lean function from the state and the
arguments to the result and the updated state.  Wall-clock reads
(`Date.now()` / `new Date()`) are passed in as an explicit `now` argument,
and the collaborator calls of the session manager (microphone capture,
speech-to-text service) are represented by explicit success/failure
parameters, since only their success or failure is observable in the
embedded state.
-/

/-- The four classes of a JavaScript number: NaN, the two infinities, and a
finite value (modelled as a rational).  Only the operations the embedded
code can actually hit on a special value are defined on `JSVal`. -/
inductive JSVal where
  | nan : JSVal
  | inf : JSVal
  | ninf : JSVal
  | fin : ℚ → JSVal
deriving DecidableEq, Repr

/-- JavaScript division of two finite numbers: `0/0 = NaN`, `a/0 = ±∞` for
`a ≠ 0`, ordinary rational division otherwise. -/
def jsDiv (a b : ℚ) : JSVal :=
  if b = 0 then
    if a = 0 then .nan else if 0 < a then .inf else .ninf
  else .fin (a / b)

/-- JavaScript `Math.sqrt` on a `JSVal`.  NaN and negative radicands give NaN and `+∞`
is preserved, exactly as in JavaScript.  The finite non-negative case is
represented by `Rat.sqrt` (exact on perfect squares); no claim settled in
this file depends on the numeric value of an inexact square root, only on
the NaN/finite/infinite class of the result. -/
def jsSqrt : JSVal → JSVal
  | .nan => .nan
  | .inf => .inf
  | .ninf => .nan
  | .fin q => if q < 0 then .nan else .fin (Rat.sqrt q)

/-- Sum of squares of a sample list (the accumulator loop shared by the
energy and RMS computations of `AudioProcessor.ts` and `VAD.ts`). -/
def sumSq (xs : List ℚ) : ℚ :=
  xs.foldl (fun s x => s + x * x) 0

/-- Embeds `AudioProcessorImpl.calculateRMSVolume` (`AudioProcessor.ts` lines
310-316): `Math.sqrt(sum / audioData.length)`.  For a zero-length frame the
JavaScript code divides by zero, producing `sqrt(0/0) = sqrt(NaN) = NaN`. -/
def calculateRMSVolume (xs : List ℚ) : JSVal :=
  jsSqrt (jsDiv (sumSq xs) xs.length)

/-- The `AudioFormat` union from `AudioProcessor.ts`. -/
inductive AudioFormat where
  | wav | mp3 | ogg | webm | raw | float32
deriving DecidableEq, Repr

/-- The `AudioConfig` interface from `AudioProcessor.ts`. -/
structure AudioConfig where
  sampleRate : ℚ
  channels : ℕ
  bitDepth : ℕ
  format : AudioFormat
  enableNormalization : Bool
  enableNoiseReduction : Bool
  enableVAD : Bool
  targetVolume : ℚ
  silenceThreshold : ℚ
deriving DecidableEq, Repr

/-- A `Partial<AudioConfig>` as passed to `AudioProcessorImpl.process`: every
field optionally overridden. -/
structure AudioConfigPatch where
  sampleRate : Option ℚ := none
  channels : Option ℕ := none
  bitDepth : Option ℕ := none
  format : Option AudioFormat := none
  enableNormalization : Option Bool := none
  enableNoiseReduction : Option Bool := none
  enableVAD : Option Bool := none
  targetVolume : Option ℚ := none
  silenceThreshold : Option ℚ := none
deriving DecidableEq, Repr

/-- The spread-merge `{ ...this.config, ...config }` performed at the top of
`AudioProcessorImpl.process`. -/
def mergeConfig (c : AudioConfig) (p : AudioConfigPatch) : AudioConfig where
  sampleRate := p.sampleRate.getD c.sampleRate
  channels := p.channels.getD c.channels
  bitDepth := p.bitDepth.getD c.bitDepth
  format := p.format.getD c.format
  enableNormalization := p.enableNormalization.getD c.enableNormalization
  enableNoiseReduction := p.enableNoiseReduction.getD c.enableNoiseReduction
  enableVAD := p.enableVAD.getD c.enableVAD
  targetVolume := p.targetVolume.getD c.targetVolume
  silenceThreshold := p.silenceThreshold.getD c.silenceThreshold

/-- The mutable fields of an `AudioProcessorImpl` instance: the stored
config and the lazily cached noise profile. -/
structure ProcessorState where
  config : AudioConfig
  noiseProfile : Option (List ℚ)
deriving DecidableEq, Repr

/-- Zero-crossing count of `AudioProcessorImpl.calculateZeroCrossingRate` /
`VoiceActivityDetector.calculateZeroCrossingRate`: the number of indices
`i ≥ 1` where the sign bit (`x ≥ 0`) differs from the previous sample. -/
def zeroCrossings : List ℚ → ℕ
  | [] => 0
  | x :: xs => go x xs
where
  go (prev : ℚ) : List ℚ → ℕ
    | [] => 0
    | y :: ys => (if (decide (0 ≤ y)) ≠ (decide (0 ≤ prev)) then 1 else 0) + go y ys


namespace AudioProcessorImpl

/-- Embeds `Math.max(...audioData.map(Math.abs))`, folded from `0`.  For a
non-empty list this equals the true maximum (absolute values are
non-negative); for the empty list JavaScript yields `-∞`, which fails the
`max === 0` test in `normalize` just as the fold value `0` sends the empty
list through the (empty) scaling loop — both return an empty frame. -/
def maxAbs (xs : List ℚ) : ℚ :=
  xs.foldl (fun m x => max m |x|) 0

/-- Embeds `AudioProcessorImpl.normalize` (`AudioProcessor.ts` lines 117-129):
peak-scale every sample by `targetVolume / max`, returning the input
unchanged when the peak is zero.  `target` is the instance's
`config.targetVolume`. -/
def normalize (target : ℚ) (xs : List ℚ) : List ℚ :=
  let m := maxAbs xs
  if m = 0 then xs
  else xs.map (fun x => x / m * target)

/-- Embeds `AudioProcessorImpl.applyGain` (`AudioProcessor.ts` lines 194-200). -/
def applyGain (xs : List ℚ) (gain : ℚ) : List ℚ :=
  xs.map (fun x => x * gain)

/-- Embeds `AudioProcessorImpl.convertToFloat32` (`AudioProcessor.ts` lines
223-234): pairs of bytes are read little-endian as an unsigned 16-bit
value and mapped to `(sample - 32768) / 32768`.  The output length is
`⌊bytes.length / 2⌋`. -/
def convertToFloat32 (bytes : List ℕ) : List ℚ :=
  (List.range (bytes.length / 2)).map (fun i =>
    let sample : ℚ := (bytes.getD (2 * i) 0) + (bytes.getD (2 * i + 1) 0) * 256
    (sample - 32768) / 32768)

/-- Per-window energy `sum of squares / length` with the Lean convention
`q / 0 = 0`; the voice-activity windows this is applied to are always
non-empty, so the convention is never observable there (an empty frame in
`VAD.ts` would give NaN in JavaScript, and both values classify the frame
as non-speech). -/
def calculateEnergy (xs : List ℚ) : ℚ :=
  sumSq xs / xs.length

/-- Embeds `calculateZeroCrossingRate`: crossings divided by the frame length. -/
def calculateZeroCrossingRate (xs : List ℚ) : ℚ :=
  (zeroCrossings xs : ℚ) / xs.length

/-- One window's speech test inside
`AudioProcessorImpl.detectVoiceActivity`:
`energy > silenceThreshold && zcr < 0.1`. -/
def windowHasSpeech (silenceThreshold : ℚ) (w : List ℚ) : Bool :=
  decide (calculateEnergy w > silenceThreshold) &&
    decide (calculateZeroCrossingRate w < 1 / 10)

/-- Embeds `AudioProcessorImpl.detectVoiceActivity` (`AudioProcessor.ts` lines
236-266): slide a 30 ms window by half-window hops, count windows passing
the energy/ZCR test, and report speech when more than 30 % qualify.  The
loop index runs to `⌊length / hop⌋` and breaks once a window would pass the
end of the frame.  When the hop size is zero the JavaScript loop does not
terminate on a non-empty frame (a sample rate below 67 Hz); that corner is
modelled as `false` and is not exercised by any claim.  A window count of
zero gives `0/0 = NaN > 0.3 = false` in JavaScript, i.e. `false`. -/
def detectVoiceActivity (cfg : AudioConfig) (xs : List ℚ) : Bool :=
  let windowSize := (⌊cfg.sampleRate * (3 / 100)⌋).toNat
  let hopSize := windowSize / 2
  if hopSize = 0 then false
  else
    let windows := xs.length / hopSize
    let speechWindows :=
      ((List.range windows).filter (fun i =>
        i * hopSize + windowSize ≤ xs.length &&
          windowHasSpeech cfg.silenceThreshold
            ((xs.drop (i * hopSize)).take windowSize))).length
    if windows = 0 then false
    else decide ((speechWindows : ℚ) / windows > 3 / 10)

/-- Embeds `AudioProcessorImpl.createNoiseProfile` (`AudioProcessor.ts` lines
482-490): the first 10 % of the frame. -/
def createNoiseProfile (xs : List ℚ) : List ℚ :=
  xs.take (xs.length / 10)

/-- Embeds `AudioProcessorImpl.applySpectralSubtraction` (`AudioProcessor.ts`
lines 492-510): per sample, subtract `α = 2` times the noise power from the
signal power, floored at 1 % of the signal power, and restore the sign via
a square root.  Positions beyond the noise profile keep the zero the output
buffer was initialised with.  The square root of the (non-negative) floored
power is represented by `Rat.sqrt`, exact on perfect squares; no claim
depends on its inexact values. -/
def applySpectralSubtraction (w : List ℚ) (noiseProfile : List ℚ) : List ℚ :=
  (List.range w.length).map (fun i =>
    if i < noiseProfile.length then
      let x := w.getD i 0
      let n := noiseProfile.getD i 0
      let cleanSignal := max (x * x - 2 * (n * n)) (1 / 100 * (x * x))
      if 0 ≤ x then Rat.sqrt cleanSignal else -(Rat.sqrt cleanSignal)
    else 0)

/-- Overwrite `dst` with `src` starting at offset `i` (the overlap-add loop
of `denoise`, which plainly assigns `denoised[i+j] = processedWindow[j]`). -/
def writeAt (dst : List ℚ) (i : ℕ) (src : List ℚ) : List ℚ :=
  (List.range dst.length).map (fun k =>
    if i ≤ k ∧ k < i + src.length then src.getD (k - i) 0 else dst.getD k 0)

/-- The window start offsets `0, 512, 1024, …` of the `denoise` loop:
all multiples of `hop` strictly below `len - windowSize` (with JavaScript's
signed subtraction, so no window at all when `len ≤ windowSize`). -/
def denoiseOffsets (len windowSize hop : ℕ) : List ℕ :=
  (List.range ((len - windowSize + hop - 1) / hop)).map (· * hop)

/-- Embeds `AudioProcessorImpl.denoise` (`AudioProcessor.ts` lines 131-153) given
an explicit cached-profile state: lazily create the noise profile from the
input if absent, then spectral-subtract 1024-sample windows at 512-sample
hops into a zero-initialised output buffer.  Returns the output and the
(now always present) noise profile. -/
def denoise (profile : Option (List ℚ)) (xs : List ℚ) : List ℚ × List ℚ :=
  let np := profile.getD (createNoiseProfile xs)
  let out := (denoiseOffsets xs.length 1024 512).foldl
    (fun acc i => writeAt acc i (applySpectralSubtraction ((xs.drop i).take 1024) np))
    (List.replicate xs.length 0)
  (out, np)

/-- The fields of `ProcessedAudio` (`AudioProcessor.ts` lines 28-38) that
the embedded pipeline computes.  The `quality` and `spectralAnalysis`
fields are omitted from the embedding: they are pure functions of `data`
and the merged config (via real `log10`/`cos`/`sin`), they read or write no
other state, and no claim settled here depends on their values, so
equality of the embedded record together with equality of the merged
config implies equality of the full JavaScript record. -/
structure ProcessedAudio where
  data : List ℚ
  format : AudioFormat
  sampleRate : ℚ
  channels : ℕ
  duration : JSVal
  volume : JSVal
  hasVoice : Bool
deriving DecidableEq, Repr

/-- Embeds `AudioProcessorImpl.process` (`AudioProcessor.ts` lines 67-115): merge
the config argument into the stored config, decode, optionally normalize,
optionally denoise (caching the noise profile), apply gain, then compute
voice activity, volume and duration.  Returns the frame and the updated
instance state. -/
def process (s : ProcessorState) (raw : List ℕ) (p : AudioConfigPatch) :
    ProcessedAudio × ProcessorState :=
  let cfg := mergeConfig s.config p
  let floatData := convertToFloat32 raw
  let p1 := if cfg.enableNormalization then normalize cfg.targetVolume floatData else floatData
  let step2 := if cfg.enableNoiseReduction then denoise s.noiseProfile p1
               else (p1, (s.noiseProfile.getD []))
  let p2 := step2.1
  let profile := if cfg.enableNoiseReduction then some step2.2 else s.noiseProfile
  let p3 := applyGain p2 cfg.targetVolume
  let hasVoice := detectVoiceActivity cfg p3
  let volume := calculateRMSVolume p3
  let duration := jsDiv p3.length cfg.sampleRate
  ({ data := p3
     format := cfg.format
     sampleRate := cfg.sampleRate
     channels := cfg.channels
     duration := duration
     volume := volume
     hasVoice := hasVoice },
   { config := cfg, noiseProfile := profile })

end AudioProcessorImpl

/-! ## Voice-activity detector (`src/core/audio/VAD.ts`) -/

/-- The `VADConfig` interface from `VAD.ts`. -/
structure VADConfig where
  sampleRate : ℚ
  windowSize : ℚ
  hopSize : ℚ
  threshold : ℚ
  minSpeechDuration : ℚ
  minSilenceDuration : ℚ
  sensitivity : ℚ
  adaptiveThreshold : Bool
deriving DecidableEq, Repr

/-- The `VADResult` interface from `VAD.ts`. -/
structure VADResult where
  isSpeech : Bool
  confidence : ℚ
  energy : ℚ
  timestamp : ℚ
  frameIndex : ℕ
  voiceProbability : ℚ
  spectralCentroid : ℚ
deriving DecidableEq, Repr

/-- The `VADState` interface from `VAD.ts`. -/
structure VADState where
  isSpeech : Bool
  speechStartTime : ℚ
  speechEndTime : ℚ
  totalSpeechDuration : ℚ
  totalSilenceDuration : ℚ
  speechFrames : ℕ
  silenceFrames : ℕ
deriving DecidableEq, Repr

/-- The statistics record returned by
`VoiceActivityDetector.getStatistics`. -/
structure VADStatistics where
  speechRatio : ℚ
  silenceRatio : ℚ
  averageEnergy : ℚ
  energyVariance : ℚ
deriving DecidableEq, Repr

/-- JavaScript `Math.pow` on rationals.  Exact for integer exponents (with
the `0 ^ -n = 0` convention of `zpow` standing in for JavaScript's `∞`,
a corner no claim reaches); for a fractional exponent the true value is
irrational and is represented by the base itself — every claim settled in
this file drives the detector with `sensitivity = 1`, where `Math.pow` is
the identity and the representation is exact. -/
def jsPow (x s : ℚ) : ℚ :=
  if s.den = 1 then x ^ s.num else x

namespace VoiceActivityDetector

/-- The mutable fields of a `VoiceActivityDetector` instance (`VAD.ts`
lines 36-44).  The declared-but-never-read `frameBuffer` field is omitted;
`adaptationRate` is the constant `0.01` (it is initialised to `0.01` and
`setAdaptiveThreshold` can only re-assign the same value). -/
structure VAD where
  config : VADConfig
  frameIndex : ℕ
  state : VADState
  energyHistory : List ℚ
  baselineEnergy : ℚ
  lastVADResult : Option VADResult
deriving DecidableEq, Repr

/-- The `VoiceActivityDetector` constructor (`VAD.ts` lines 46-57). -/
def create (cfg : VADConfig) : VAD where
  config := cfg
  frameIndex := 0
  state :=
    { isSpeech := false
      speechStartTime := 0
      speechEndTime := 0
      totalSpeechDuration := 0
      totalSilenceDuration := 0
      speechFrames := 0
      silenceFrames := 0 }
  energyHistory := []
  baselineEnergy := 0
  lastVADResult := none

/-- Embeds `VoiceActivityDetector.calculateEnergy` (`VAD.ts` lines
105-111): mean squared amplitude.  Lean's `q / 0 = 0` convention stands in
for the NaN a zero-length frame would produce in JavaScript; both classify
such a frame as non-speech and no claim distinguishes them. -/
def calculateEnergy (xs : List ℚ) : ℚ :=
  sumSq xs / xs.length

/-- Embeds `VoiceActivityDetector.calculateZeroCrossingRate` (`VAD.ts`
lines 113-121). -/
def calculateZeroCrossingRate (xs : List ℚ) : ℚ :=
  (zeroCrossings xs : ℚ) / xs.length

/-- Embeds `VoiceActivityDetector.calculateSpectralCentroid` (`VAD.ts`
lines 123-137): magnitude-weighted mean of the per-index frequency
`i * sampleRate / (2 * length)` over indices `1 ≤ i < length`. -/
def calculateSpectralCentroid (sampleRate : ℚ) (xs : List ℚ) : ℚ :=
  let idx := (List.range xs.length).drop 1
  let weightedSum :=
    (idx.map (fun i => |xs.getD i 0| * (i * sampleRate / (2 * xs.length)))).sum
  let magnitudeSum := (idx.map (fun i => |xs.getD i 0|)).sum
  if magnitudeSum > 0 then weightedSum / magnitudeSum else 0

/-- Embeds `VoiceActivityDetector.calculateVoiceProbability` (`VAD.ts`
lines 139-165).  The `threshold` parameter is declared by the source method
but never read in its body — the operating threshold does not influence
the probability. -/
def calculateVoiceProbability (energy zcr spectralCentroid _threshold sensitivity : ℚ) : ℚ :=
  let normalizedEnergy := min (energy * 10) 1
  let normalizedZCR := max 0 (min (zcr * 10) 1)
  let normalizedCentroid := min (spectralCentroid / 2000) 1
  let voiceProbability :=
    normalizedEnergy * (5 / 10) + (1 - normalizedZCR) * (2 / 10) +
      normalizedCentroid * (3 / 10)
  let adjustedProbability := jsPow voiceProbability sensitivity
  max 0 (min 1 adjustedProbability)

/-- Ascending sort, the effect of `[...].sort((a, b) => a - b)` on a list
of rationals. -/
def sortAsc (xs : List ℚ) : List ℚ :=
  xs.mergeSort (fun a b => a ≤ b)

/-- Embeds `VoiceActivityDetector.calculateAdaptiveThreshold` (`VAD.ts`
lines 167-187), explicit in the two instance fields it reads and writes:
given the energy history and the current `baselineEnergy`, it returns the
operating threshold and the new `baselineEnergy`.  With fewer than 10
history entries it returns the static `config.threshold` and leaves the
baseline untouched; otherwise it takes 2.5× the median of the sorted
history, smooths it into the baseline with rate `0.01`, stores the
smoothed value, and clamps the returned threshold to
`[0.5 × threshold, 3 × threshold]`. -/
def calculateAdaptiveThreshold (cfg : VADConfig) (energyHistory : List ℚ)
    (baselineEnergy : ℚ) : ℚ × ℚ :=
  if energyHistory.length < 10 then (cfg.threshold, baselineEnergy)
  else
    let sortedEnergies := sortAsc energyHistory
    let medianIndex := sortedEnergies.length / 2
    let medianEnergy := sortedEnergies.getD medianIndex 0
    let adaptiveThreshold := medianEnergy * (5 / 2)
    let smoothedThreshold :=
      baselineEnergy * (1 - 1 / 100) + adaptiveThreshold * (1 / 100)
    (max (cfg.threshold * (5 / 10)) (min smoothedThreshold (cfg.threshold * 3)),
     smoothedThreshold)

/-- Stated from the spec's words, for comparison with
`calculateAdaptiveThreshold` (claim C8): "recompute the operating threshold
as 2.5× the median of the recent energy history, then smooth it into a
baseline via exponential moving average (smoothing factor 0.01), clamped to
[0.5×, 3×] of the configured static threshold" — with no condition on the
length of the history. -/
def specAdaptiveThreshold (cfg : VADConfig) (energyHistory : List ℚ)
    (baselineEnergy : ℚ) : ℚ × ℚ :=
  let sortedEnergies := sortAsc energyHistory
  let medianIndex := sortedEnergies.length / 2
  let medianEnergy := sortedEnergies.getD medianIndex 0
  let adaptiveThreshold := medianEnergy * (5 / 2)
  let smoothedThreshold :=
    baselineEnergy * (1 - 1 / 100) + adaptiveThreshold * (1 / 100)
  (max (cfg.threshold * (5 / 10)) (min smoothedThreshold (cfg.threshold * 3)),
   smoothedThreshold)

/-- Embeds `VoiceActivityDetector.applyHysteresis` (`VAD.ts` lines
189-204) as a function of the previous verdict (`lastVADResult?.isSpeech`,
`none` on the very first frame): with no prior result the frame is speech
iff the probability exceeds `0.5`; a speech frame stays speech iff the
probability exceeds `0.5 - 0.1`; a silence frame becomes speech iff the
probability exceeds `0.5 + 0.1`.  Both comparisons are strict (`>`). -/
def applyHysteresis (lastIsSpeech : Option Bool) (voiceProbability : ℚ) : Bool :=
  match lastIsSpeech with
  | none => decide (voiceProbability > 5 / 10)
  | some true => decide (voiceProbability > 5 / 10 - 1 / 10)
  | some false => decide (voiceProbability > 5 / 10 + 1 / 10)

/-- Embeds `VoiceActivityDetector.updateState` (`VAD.ts` lines 206-228).
Note that the speech-to-silence transition branch clears `state.isSpeech`
before the silence-accumulation guard `if (this.state.isSpeech)` is
evaluated. -/
def updateState (st : VADState) (isSpeech : Bool) (now : ℚ) : VADState :=
  let st1 :=
    if isSpeech && !st.isSpeech then
      { st with isSpeech := true, speechStartTime := now }
    else if !isSpeech && st.isSpeech then
      { st with isSpeech := false, speechEndTime := now,
                totalSpeechDuration := st.totalSpeechDuration + (now - st.speechStartTime) }
    else st
  if isSpeech then
    { st1 with speechFrames := st1.speechFrames + 1 }
  else
    let st2 := { st1 with silenceFrames := st1.silenceFrames + 1 }
    if st2.isSpeech then
      { st2 with totalSilenceDuration := st2.totalSilenceDuration + (now - st2.speechEndTime) }
    else st2

/-- The bounded energy-history push of `processFrame` (`VAD.ts` lines
69-72): append, then `shift()` the oldest entry away once the length
exceeds 100. -/
def pushEnergy (energyHistory : List ℚ) (energy : ℚ) : List ℚ :=
  let h := energyHistory ++ [energy]
  if h.length > 100 then h.tail else h

/-- Embeds `VoiceActivityDetector.processFrame` (`VAD.ts` lines 59-103):
compute the frame features, push the energy into the bounded history,
recompute the operating threshold when `adaptiveThreshold` is enabled,
derive the voice probability, apply hysteresis against the previous
result, update the cumulative state, and emit the result while advancing
`frameIndex`.  (The `windowSamples`/`hopSamples` locals of the source are
computed but never used and are omitted.) -/
def processFrame (v : VAD) (audioData : List ℚ) : VADResult × VAD :=
  let energy := calculateEnergy audioData
  let zcr := calculateZeroCrossingRate audioData
  let spectralCentroid := calculateSpectralCentroid v.config.sampleRate audioData
  let history := pushEnergy v.energyHistory energy
  let thresholdStep :=
    if v.config.adaptiveThreshold then
      calculateAdaptiveThreshold v.config history v.baselineEnergy
    else (v.config.threshold, v.baselineEnergy)
  let voiceProbability :=
    calculateVoiceProbability energy zcr spectralCentroid thresholdStep.1
      v.config.sensitivity
  let isSpeech := applyHysteresis (v.lastVADResult.map (·.isSpeech)) voiceProbability
  let state := updateState v.state isSpeech (v.frameIndex * v.config.hopSize)
  let result : VADResult :=
    { isSpeech := isSpeech
      confidence := voiceProbability
      energy := energy
      timestamp := v.frameIndex * v.config.hopSize
      frameIndex := v.frameIndex
      voiceProbability := voiceProbability
      spectralCentroid := spectralCentroid }
  (result,
   { v with
     state := state
     energyHistory := history
     baselineEnergy := thresholdStep.2
     lastVADResult := some result
     frameIndex := v.frameIndex + 1 })

/-- Embeds `VoiceActivityDetector.getStatistics` (`VAD.ts` lines 239-263);
read-only. -/
def getStatistics (v : VAD) : VADStatistics :=
  let totalFrames := v.frameIndex
  let speechRatio :=
    if totalFrames > 0 then (v.state.speechFrames : ℚ) / totalFrames else 0
  let averageEnergy :=
    if v.energyHistory.length > 0 then
      v.energyHistory.sum / v.energyHistory.length
    else 0
  let energyVariance :=
    if v.energyHistory.length > 1 then
      ((v.energyHistory.map (fun e => (e - averageEnergy) ^ 2)).sum) /
        (v.energyHistory.length : ℚ)
    else 0
  { speechRatio := speechRatio
    silenceRatio := 1 - speechRatio
    averageEnergy := averageEnergy
    energyVariance := energyVariance }

/-- Embeds `VoiceActivityDetector.reset` (`VAD.ts` lines 280-295). -/
def reset (v : VAD) : VAD where
  config := v.config
  frameIndex := 0
  state :=
    { isSpeech := false
      speechStartTime := 0
      speechEndTime := 0
      totalSpeechDuration := 0
      totalSilenceDuration := 0
      speechFrames := 0
      silenceFrames := 0 }
  energyHistory := []
  baselineEnergy := v.config.threshold
  lastVADResult := none

/-- Embeds `VoiceActivityDetector.updateConfig` (`VAD.ts` lines 298-300)
for a complete replacement config: the spread-merge of a full `VADConfig`
overrides every field.  The only caller exercised by the claims
(`AudioSessionManager.startSession`) passes a complete config. -/
def updateConfig (v : VAD) (cfg : VADConfig) : VAD :=
  { v with config := cfg }

/-- Folds a sequence of frames through `processFrame`, returning the final
detector state. -/
def run (v : VAD) (frames : List (List ℚ)) : VAD :=
  frames.foldl (fun w f => (processFrame w f).2) v

/-- The verdict sequence `applyHysteresis` produces on a given
voice-probability sequence, starting from a fresh detector (no previous
result) and chaining each verdict into the next call exactly as
`processFrame` chains `lastVADResult`. -/
def hysteresisOutputs (ps : List ℚ) : List Bool :=
  go none ps
where
  go (prev : Option Bool) : List ℚ → List Bool
    | [] => []
    | p :: rest =>
      let b := applyHysteresis prev p
      b :: go (some b) rest

end VoiceActivityDetector

/-! ## Session orchestrator (`src/core/stt/AudioSessionManager.ts`)

Only the operations the claims exercise are embedded: `startSession`,
`stopSession` and the helpers they call.  The speech-to-text and
microphone-capture collaborators are external; their calls are represented
by explicit success/failure parameters (`captureOk`, `sttOk`) on
`startSession`, and the collaborator's `stopSession` — whose outcome the
spec leaves unspecified — is taken to succeed.  String-valued ids are
modelled as naturals and the transcript's string fields are omitted
(no embedded operation reads them). -/

/-- The fields of the `AudioTranscript` interface
(`AudioSessionManager.ts` lines 53-67) read by the embedded operations. -/
structure AudioTranscript where
  confidence : ℚ
  timestamp : ℚ
  duration : ℚ
  isFinal : Bool
deriving DecidableEq, Repr

/-- The `AudioSessionStatistics` interface (`AudioSessionManager.ts` lines
69-81). -/
structure AudioSessionStatistics where
  totalDuration : ℚ
  speakingDuration : ℚ
  silenceDuration : ℚ
  averageConfidence : ℚ
  wordsPerMinute : ℚ
  chunksProcessed : ℕ
  errorCount : ℕ
  voiceActivityRatio : ℚ
  averageEnergy : ℚ
  peakEnergy : ℚ
  silencePeriods : ℕ
deriving DecidableEq, Repr

/-- The `AudioSessionConfig` interface (`AudioSessionManager.ts` lines
7-25).  The `sttService` collaborator carries no embedded state; the
`audioProcessor` and `vad` instance references are embedded as their
states.  In TypeScript every session built from the same manager config
aliases one processor/detector instance unless overridden; the claims
settled here exercise a single session, where the aliasing is
unobservable, so the instances are stored per session. -/
structure AudioSessionConfig where
  audioProcessor : ProcessorState
  vad : VoiceActivityDetector.VAD
  autoStart : Bool
  autoStop : Bool
  maxSessionDuration : ℚ
  silenceTimeout : ℚ
  minConfidence : ℚ
  enablePartialResults : Bool
  audioConfig : AudioConfig
  vadConfig : VADConfig
deriving DecidableEq, Repr

/-- The `AudioSession` interface (`AudioSessionManager.ts` lines 27-51).
The raw/processed chunk buffers and the notification callbacks are not
embedded: no settled claim observes them. -/
structure AudioSession where
  id : ℕ
  config : AudioSessionConfig
  isActive : Bool
  isRecording : Bool
  startTime : ℚ
  endTime : Option ℚ
  transcripts : List AudioTranscript
  statistics : AudioSessionStatistics
deriving DecidableEq, Repr

/-- The errors `startSession`/`stopSession` can throw. -/
inductive SessionError where
  | notFound
  | alreadyActive
  | captureFailed
  | sttFailed
deriving DecidableEq, Repr

/-- Decidable equality for `Except` results, used to evaluate concrete
session scenarios. -/
instance {e a : Type} [DecidableEq e] [DecidableEq a] : DecidableEq (Except e a) := fun x y =>
  match x, y with
  | .ok u, .ok v =>
    if h : u = v then isTrue (by rw [h]) else isFalse (fun hc => h (by injection hc))
  | .error u, .error v =>
    if h : u = v then isTrue (by rw [h]) else isFalse (fun hc => h (by injection hc))
  | .ok _, .error _ => isFalse (fun hc => Except.noConfusion hc)
  | .error _, .ok _ => isFalse (fun hc => Except.noConfusion hc)

namespace AudioSessionManager

/-- The mutable fields of an `AudioSessionManager` instance
(`AudioSessionManager.ts` lines 83-89) that the embedded operations
touch: the session map (as an id-keyed list), whether a silence timer is
pending, and whether the capture resource is held. -/
structure Manager where
  sessions : List AudioSession
  silenceTimer : Bool
  mediaStream : Bool
deriving DecidableEq, Repr

/-- Embeds `this.sessions.get(sessionId)`. -/
def findSession (m : Manager) (sessionId : ℕ) : Option AudioSession :=
  m.sessions.find? (fun s => s.id == sessionId)

/-- Writing back a session fetched from the map: in TypeScript the map
holds the object reference, so mutations through the reference replace the
stored session in place. -/
def setSession (m : Manager) (s : AudioSession) : Manager :=
  { m with sessions := m.sessions.map (fun t => if t.id == s.id then s else t) }

/-- Embeds `AudioSessionManager.countSilencePeriods`
(`AudioSessionManager.ts` lines 432-449): the number of downward crossings
of the confidence threshold along the transcript sequence. -/
def countSilencePeriods (s : AudioSession) : ℕ :=
  (s.transcripts.foldl
    (fun acc t =>
      let isInSpeech := decide (t.confidence > s.config.minConfidence)
      (acc.1 + (if !isInSpeech && acc.2 then 1 else 0), isInSpeech))
    ((0 : ℕ), false)).1

/-- Embeds `AudioSessionManager.calculateFinalStatistics`
(`AudioSessionManager.ts` lines 417-430): a no-op without an `endTime`;
otherwise total duration from the wall-clock start/end, the speech/silence
split from the detector's cumulative ratios, and the silence-period
count from the transcripts. -/
def calculateFinalStatistics (s : AudioSession) : AudioSession :=
  match s.endTime with
  | none => s
  | some e =>
    let totalDuration := e - s.startTime
    let vadStats := VoiceActivityDetector.getStatistics s.config.vad
    { s with statistics :=
      { s.statistics with
        totalDuration := totalDuration
        speakingDuration := totalDuration * vadStats.speechRatio
        silenceDuration := totalDuration * vadStats.silenceRatio
        silencePeriods := countSilencePeriods s } }

/-- Embeds `AudioSessionManager.stopSession` (`AudioSessionManager.ts`
lines 170-194) at wall-clock instant `now`: throws for an unknown id;
otherwise stops recording (clearing the capture resource and any pending
silence timer, via `stopRecording`), stops the collaborator, stamps
`endTime` with the current time, clears `isActive` and finalises the
statistics.  There is no guard on the session being active. -/
def stopSession (m : Manager) (sessionId : ℕ) (now : ℚ) :
    Except SessionError Manager :=
  match findSession m sessionId with
  | none => .error .notFound
  | some s =>
    let s1 := { s with isRecording := false }
    let m1 := { m with mediaStream := false, silenceTimer := false }
    let s2 := { s1 with endTime := some now, isActive := false }
    .ok (setSession m1 (calculateFinalStatistics s2))

/-- Embeds `AudioSessionManager.startSession` (`AudioSessionManager.ts`
lines 132-168) with the collaborator outcomes explicit: throws for an
unknown id or an already-active session; otherwise marks the session
active, pushes the session's audio/VAD configs into the processor and
detector, acquires the capture resource and starts the collaborator
session.  When either collaborator call fails, the catch block clears
`isActive` and `isRecording` and the error propagates (the config updates
persist, and a capture resource acquired before a collaborator failure
stays held, as in the source). -/
def startSession (m : Manager) (sessionId : ℕ) (captureOk sttOk : Bool) :
    Manager × Option SessionError :=
  match findSession m sessionId with
  | none => (m, some .notFound)
  | some s =>
    if s.isActive then (m, some .alreadyActive)
    else
      let s1 := { s with
        isActive := true
        config := { s.config with
          audioProcessor := { s.config.audioProcessor with config := s.config.audioConfig }
          vad := VoiceActivityDetector.updateConfig s.config.vad s.config.vadConfig } }
      if captureOk then
        let s2 := { s1 with isRecording := true }
        if sttOk then (setSession { m with mediaStream := true } s2, none)
        else
          (setSession { m with mediaStream := true }
            { s2 with isActive := false, isRecording := false }, some .sttFailed)
      else
        (setSession m { s1 with isActive := false, isRecording := false },
         some .captureFailed)

end AudioSessionManager

/-! ## Concrete fixtures used by witnesses and counterexamples -/

/-- A base audio config: 44.1 kHz mono, normalization and noise reduction
disabled, unit target volume. -/
def cfgA : AudioConfig :=
  ⟨44100, 1, 16, .wav, false, false, true, 1, 1 / 100⟩

/-- A fresh processor instance holding `cfgA` and no cached noise
profile. -/
def procA : ProcessorState := ⟨cfgA, none⟩

/-- The config argument `{ enableNormalization: true }`. -/
def patchNorm : AudioConfigPatch := { enableNormalization := some true }

/-- A two-byte raw buffer decoding to the single sample `-1/2`
(little-endian 16384). -/
def rawHalf : List ℕ := [0, 64]

/-- A base VAD config: 16 kHz, static threshold 1, sensitivity 1, adaptive
thresholding off. -/
def vcfgBase : VADConfig := ⟨16000, 25, 10, 1, 250, 100, 1, false⟩

/-- The base VAD config with adaptive thresholding enabled. -/
def vcfgAdaptive : VADConfig := { vcfgBase with adaptiveThreshold := true }

/-- The base VAD config at sample rate `7000/3` Hz, chosen so that the
constant frame `[1/4, 1/4]` lands on voice probability exactly `3/5`. -/
def vcfgCentroid : VADConfig := { vcfgBase with sampleRate := 7000 / 3 }

/-- A previous frame's result classified Silence. -/
def priorSilence : VADResult := ⟨false, 0, 0, 0, 0, 0, 0⟩

/-- A detector whose previous frame was classified Silence. -/
def vSilence : VoiceActivityDetector.VAD :=
  { VoiceActivityDetector.create vcfgCentroid with lastVADResult := some priorSilence }

/-- All-zero session statistics, as allocated by `createSession`. -/
def statsZero : AudioSessionStatistics := ⟨0, 0, 0, 0, 0, 0, 0, 0, 0, 0, 0⟩

/-- A session config wiring the fixtures together: auto-stop on, 3 s
silence timeout, confidence threshold `1/2`. -/
def sessCfgA : AudioSessionConfig :=
  ⟨procA, VoiceActivityDetector.create vcfgBase, false, true, 600000, 3000,
   1 / 2, false, cfgA, vcfgBase⟩

/-- Session 1 in the Active state (started at time 0). -/
def sessActive : AudioSession := ⟨1, sessCfgA, true, true, 0, none, [], statsZero⟩

/-- A manager owning the active session 1 and holding the capture
resource. -/
def mgrA : AudioSessionManager.Manager := ⟨[sessActive], false, true⟩

/-- Session 1 in the Created state (never started). -/
def sessCreated : AudioSession := ⟨1, sessCfgA, false, false, 0, none, [], statsZero⟩

/-- A manager owning the created-but-never-started session 1. -/
def mgrC : AudioSessionManager.Manager := ⟨[sessCreated], false, false⟩

/-! ## Helper lemmas -/

namespace AudioProcessorImpl

theorem le_foldl_maxAbs (xs : List ℚ) (a : ℚ) :
    a ≤ xs.foldl (fun m x => max m |x|) a := by
  induction xs generalizing a with
  | nil => exact le_refl a
  | cons y ys ih => exact le_trans (le_max_left a |y|) (ih (max a |y|))

theorem mem_le_foldl_maxAbs (x : ℚ) (xs : List ℚ) :
    ∀ a : ℚ, x ∈ xs → |x| ≤ xs.foldl (fun m x => max m |x|) a := by
  induction xs with
  | nil => intro a h; cases h
  | cons y ys ih =>
    intro a h
    rcases List.mem_cons.mp h with h | h
    · subst h
      exact le_trans (le_max_right a |x|) (le_foldl_maxAbs ys (max a |x|))
    · exact ih (max a |y|) h

theorem maxAbs_pos {xs : List ℚ} (h : ∃ x ∈ xs, x ≠ 0) : 0 < maxAbs xs := by
  obtain ⟨x, hx, hx0⟩ := h
  exact lt_of_lt_of_le (abs_pos.mpr hx0) (mem_le_foldl_maxAbs x xs 0 hx)

theorem foldl_maxAbs_mul (xs : List ℚ) (a c : ℚ) (hc : 0 ≤ c) :
    (xs.foldl (fun m x => max m |x|) a) * c =
      (xs.map (fun x => x * c)).foldl (fun m x => max m |x|) (a * c) := by
  induction xs generalizing a with
  | nil => rfl
  | cons y ys ih =>
    have habs : |y * c| = |y| * c := by
      rw [abs_mul, abs_of_nonneg hc]
    simp only [List.foldl_cons, List.map_cons]
    rw [ih (max a |y|), max_mul_of_nonneg _ _ hc, ← habs]

theorem maxAbs_map_mul (xs : List ℚ) (c : ℚ) (hc : 0 ≤ c) :
    maxAbs (xs.map (fun x => x * c)) = maxAbs xs * c := by
  unfold maxAbs
  rw [foldl_maxAbs_mul xs 0 c hc, zero_mul]

theorem maxAbs_eq_zero_of_all_zero {xs : List ℚ} (h : ∀ x ∈ xs, x = 0) :
    maxAbs xs = 0 := by
  unfold maxAbs
  induction xs with
  | nil => rfl
  | cons y ys ih =>
    have hy : y = 0 := h y (List.mem_cons_self y ys)
    simp only [List.foldl_cons, hy, abs_zero, max_self]
    exact ih (fun x hx => h x (List.mem_cons_of_mem y hx))

end AudioProcessorImpl

/-! ## Claim C3 — peak normalization -/

/-- Claim C3: for every target volume `targetVolume > 0` and every frame
with at least one nonzero sample, `normalize` returns a frame whose
maximum absolute sample is exactly `targetVolume`; an all-zero frame is
returned unchanged. -/
theorem normalize_peak_equals_targetVolume (target : ℚ) (xs : List ℚ) :
    (0 < target → (∃ x ∈ xs, x ≠ 0) →
      AudioProcessorImpl.maxAbs (AudioProcessorImpl.normalize target xs) = target) ∧
    ((∀ x ∈ xs, x = 0) → AudioProcessorImpl.normalize target xs = xs) := by
  constructor
  · intro ht hx
    have hm : 0 < AudioProcessorImpl.maxAbs xs := AudioProcessorImpl.maxAbs_pos hx
    unfold AudioProcessorImpl.normalize
    rw [if_neg hm.ne.symm]
    have hfun : xs.map (fun x => x / AudioProcessorImpl.maxAbs xs * target) =
        xs.map (fun x => x * (target / AudioProcessorImpl.maxAbs xs)) := by
      apply List.map_congr_left
      intro x _
      field_simp
    rw [hfun, AudioProcessorImpl.maxAbs_map_mul xs _ (le_of_lt (div_pos ht hm))]
    field_simp
  · intro h
    unfold AudioProcessorImpl.normalize
    rw [if_pos (AudioProcessorImpl.maxAbs_eq_zero_of_all_zero h)]

/-- Witness for C3 at a concrete frame: normalizing `[1/2, 0]` to target
`9/10` peaks at `9/10`, and the all-zero frame `[0, 0]` is unchanged. -/
theorem normalize_peak_equals_targetVolume_witness :
    AudioProcessorImpl.maxAbs (AudioProcessorImpl.normalize (9 / 10) [1 / 2, 0]) = 9 / 10 ∧
    AudioProcessorImpl.normalize (9 / 10) [0, 0] = [0, 0] :=
  ⟨(normalize_peak_equals_targetVolume (9 / 10) [1 / 2, 0]).1 (by norm_num)
      ⟨1 / 2, by simp, by norm_num⟩,
   (normalize_peak_equals_targetVolume (9 / 10) [0, 0]).2 (by
      intro x hx
      simp only [List.mem_cons, List.not_mem_nil, or_false] at hx
      rcases hx with h | h <;> exact h)⟩

/-! ## Claim C4 — behaviour on an empty frame -/

/-- Counterexample to claim C4: processing an empty raw frame yields a
`volume` (RMS) field equal to NaN — the division by the zero sample count
in `calculateRMSVolume` is not floored — so not every numeric field of the
result is a finite number. -/
theorem process_empty_volume_nan_counterexample :
    (AudioProcessorImpl.process procA [] {}).1.volume = JSVal.nan := by decide

/-- Claim C4 as amended: an empty raw frame still yields a zero-length
`ProcessedFrame` without raising, but its `volume` (RMS) field is NaN
(`sqrt(0/0)`), not a finite number. -/
theorem process_empty_frame (s : ProcessorState) (p : AudioConfigPatch) :
    (AudioProcessorImpl.process s [] p).1.data = [] ∧ (AudioProcessorImpl.process s [] p).1.volume = JSVal.nan := by
  have hnorm : ∀ t : ℚ, AudioProcessorImpl.normalize t [] = [] := fun t => rfl
  have hden : ∀ prof, (AudioProcessorImpl.denoise prof []).1 = [] := fun prof => rfl
  cases hN : (mergeConfig s.config p).enableNormalization <;>
    cases hR : (mergeConfig s.config p).enableNoiseReduction <;>
      simp [AudioProcessorImpl.process, hN, hR, hnorm, hden, AudioProcessorImpl.convertToFloat32,
        AudioProcessorImpl.applyGain, calculateRMSVolume, sumSq, jsDiv, jsSqrt]

/-! ## Claim C7 — purity of `process` -/

/-- Counterexample to claim C7: two `process` calls with the same raw
frame, the same config argument (`{}`), and the same cached noise profile
return different `ProcessedFrame`s, because the config argument of an
earlier call was merged into the instance's stored config and persists. -/
theorem process_config_leak_counterexample :
    (AudioProcessorImpl.process procA rawHalf patchNorm).2.noiseProfile = procA.noiseProfile ∧
    (AudioProcessorImpl.process ((AudioProcessorImpl.process procA rawHalf patchNorm).2) rawHalf {}).1 ≠
      (AudioProcessorImpl.process procA rawHalf {}).1 := by with_unfolding_all decide

/-- Claim C7 as amended: `process` is a pure function of the raw frame,
the merged config (stored config overridden by the config argument) and
the cached noise profile — but the merged config is written back to the
instance, so a config argument does affect subsequent calls. -/
theorem process_pure_in_merged_config (s1 s2 : ProcessorState) (raw : List ℕ)
    (p1 p2 : AudioConfigPatch)
    (hcfg : mergeConfig s1.config p1 = mergeConfig s2.config p2)
    (hnp : s1.noiseProfile = s2.noiseProfile) :
    AudioProcessorImpl.process s1 raw p1 = AudioProcessorImpl.process s2 raw p2 := by
  unfold AudioProcessorImpl.process
  rw [hcfg, hnp]

/-- Witness for the amended C7: a stored config with normalization already
enabled and a patch enabling it produce identical results on `rawHalf`. -/
theorem process_pure_in_merged_config_witness :
    AudioProcessorImpl.process procA rawHalf patchNorm =
      AudioProcessorImpl.process ⟨{ cfgA with enableNormalization := true }, none⟩ rawHalf {} :=
  process_pure_in_merged_config procA
    ⟨{ cfgA with enableNormalization := true }, none⟩ rawHalf patchNorm {}
    (by rfl) rfl

/-! ## Claims C1, C8, C9, C10 — the voice-activity detector -/

open VoiceActivityDetector

theorem updateState_totalSilence (st : VADState) (b : Bool) (now : ℚ) :
    (updateState st b now).totalSilenceDuration = st.totalSilenceDuration := by
  cases b <;> cases hst : st.isSpeech <;> simp [updateState, hst]

theorem updateState_silenceFrames (st : VADState) (now : ℚ) :
    (updateState st false now).silenceFrames = st.silenceFrames + 1 := by
  cases hst : st.isSpeech <;> simp [updateState, hst]

theorem processFrame_totalSilence (v : VAD) (xs : List ℚ) :
    (processFrame v xs).2.state.totalSilenceDuration = v.state.totalSilenceDuration :=
  updateState_totalSilence v.state _ _

theorem run_totalSilence (frames : List (List ℚ)) :
    ∀ v : VAD, (run v frames).state.totalSilenceDuration = v.state.totalSilenceDuration := by
  induction frames with
  | nil => intro v; rfl
  | cons f fs ih =>
    intro v
    calc (run (processFrame v f).2 fs).state.totalSilenceDuration
        = (processFrame v f).2.state.totalSilenceDuration := ih _
      _ = v.state.totalSilenceDuration := processFrame_totalSilence v f

theorem pushEnergy_length_le (h : List ℚ) (e : ℚ) (hle : h.length ≤ 100) :
    (pushEnergy h e).length ≤ 100 := by
  have hlen : (h ++ [e]).length = h.length + 1 := by simp
  simp only [pushEnergy]
  by_cases hc : (h ++ [e]).length > 100
  · rw [if_pos hc, List.length_tail, hlen]
    omega
  · rw [if_neg hc, hlen]
    omega

theorem run_history_bound (frames : List (List ℚ)) :
    ∀ v : VAD, v.energyHistory.length ≤ 100 → (run v frames).energyHistory.length ≤ 100 := by
  induction frames with
  | nil => intro v hv; exact hv
  | cons f fs ih =>
    intro v hv
    exact ih (processFrame v f).2 (pushEnergy_length_le v.energyHistory _ hv)

theorem run_frameIndex (frames : List (List ℚ)) :
    ∀ v : VAD, (run v frames).frameIndex = v.frameIndex + frames.length := by
  induction frames with
  | nil => intro v; rfl
  | cons f fs ih =>
    intro v
    have hstep : (processFrame v f).2.frameIndex = v.frameIndex + 1 := rfl
    calc (run (processFrame v f).2 fs).frameIndex
        = (processFrame v f).2.frameIndex + fs.length := ih _
      _ = v.frameIndex + (fs.length + 1) := by omega
      _ = v.frameIndex + (f :: fs).length := by rw [List.length_cons]

/-- Counterexample to claim C1: with the previous frame classified
Silence, a frame whose computed voice probability is exactly `0.6` is
still classified Silence — the source comparison is the strict
`probability > 0.6`, so `probability ≥ 0.6` does not flip the verdict. -/
theorem processFrame_hysteresis_boundary_counterexample :
    (processFrame vSilence [1 / 4, 1 / 4]).1.voiceProbability = 3 / 5 ∧
    ((3 : ℚ) / 5 ≥ 3 / 5) ∧
    vSilence.lastVADResult.map (·.isSpeech) = some false ∧
    (processFrame vSilence [1 / 4, 1 / 4]).1.isSpeech = false := by
  with_unfolding_all decide

/-- Claim C1 as amended: `processFrame` classifies every frame by applying
hysteresis to the computed voice probability, chaining each result into
the next call; with a previous Speech frame the verdict stays Speech iff
the probability strictly exceeds `0.4` (so `probability ≤ 0.4` flips to
Silence); with a previous Silence frame it flips to Speech iff the
probability strictly exceeds `0.6` (a probability of exactly `0.6` stays
Silence); with no prior frame it is Speech iff the probability strictly
exceeds `0.5`; and the probability sequence `[0.6, 0.55, 0.45, 0.38]` fed
to a fresh detector (initial state Silence) yields the verdicts
`[true, true, true, false]`. -/
theorem processFrame_applies_hysteresis :
    (∀ (v : VAD) (xs : List ℚ),
       (processFrame v xs).1.isSpeech =
         applyHysteresis (v.lastVADResult.map (·.isSpeech))
           (processFrame v xs).1.voiceProbability ∧
       (processFrame v xs).2.lastVADResult = some (processFrame v xs).1) ∧
    (∀ p : ℚ,
       applyHysteresis (some true) p = decide (2 / 5 < p) ∧
       applyHysteresis (some false) p = decide (3 / 5 < p) ∧
       applyHysteresis none p = decide (1 / 2 < p)) ∧
    hysteresisOutputs [3 / 5, 11 / 20, 9 / 20, 19 / 50] = [true, true, true, false] := by
  refine ⟨fun v xs => ⟨rfl, rfl⟩, fun p => ?_, by with_unfolding_all decide⟩
  refine ⟨?_, ?_, ?_⟩ <;>
    · simp only [applyHysteresis]
      rw [decide_eq_decide]
      norm_num

/-- Counterexample to claim C8: with adaptive thresholding enabled but
fewer than 10 energy-history entries, `calculateAdaptiveThreshold` returns
the static threshold unchanged (and leaves the baseline untouched), while
the claimed median/EMA/clamp formula would give a different value — here
`1` versus the formula's `1/2` on the very first frame. -/
theorem calculateAdaptiveThreshold_short_history_counterexample :
    calculateAdaptiveThreshold vcfgAdaptive [1] 0 = (1, 0) ∧
    specAdaptiveThreshold vcfgAdaptive [1] 0 = (1 / 2, 1 / 40) ∧
    (processFrame (create vcfgAdaptive) [1]).2.baselineEnergy = 0 ∧
    ((1 : ℚ), (0 : ℚ)) ≠ (1 / 2, 1 / 40) := by
  with_unfolding_all decide

/-- Claim C8 as amended: when adaptive thresholding is enabled the
operating threshold and new baseline follow the claimed
2.5×-median / EMA(0.01) / clamp-to-`[0.5×, 3×]` formula only once the
energy history (after pushing the current frame's energy) holds at least
10 entries; with fewer entries the static threshold is returned and the
baseline is left unchanged.  `processFrame` stores the baseline this
computation produces. -/
theorem calculateAdaptiveThreshold_matches_spec_from_ten (cfg : VADConfig)
    (h : List ℚ) (b : ℚ) :
    calculateAdaptiveThreshold cfg h b =
      (if h.length < 10 then (cfg.threshold, b) else specAdaptiveThreshold cfg h b) ∧
    (∀ (v : VAD) (xs : List ℚ),
       (processFrame v xs).2.baselineEnergy =
         (if v.config.adaptiveThreshold then
            calculateAdaptiveThreshold v.config
              (pushEnergy v.energyHistory (VoiceActivityDetector.calculateEnergy xs))
              v.baselineEnergy
          else (v.config.threshold, v.baselineEnergy)).2) := by
  constructor
  · by_cases hl : h.length < 10
    · simp [calculateAdaptiveThreshold, hl]
    · simp [calculateAdaptiveThreshold, specAdaptiveThreshold, hl]
  · intro v xs
    rfl

/-- Claim C9: the rolling energy history never exceeds 100 entries
(preserved by every `processFrame` call, hence bounded on every run from a
fresh detector), and `frameIndex` starts at 0, is emitted unchanged in the
result, advances by exactly 1 per processed frame, and returns to 0
through `reset`. -/
theorem vad_history_bound_and_frameIndex :
    (∀ (v : VAD) (xs : List ℚ), v.energyHistory.length ≤ 100 →
       (processFrame v xs).2.energyHistory.length ≤ 100) ∧
    (∀ (cfg : VADConfig) (frames : List (List ℚ)),
       (run (create cfg) frames).energyHistory.length ≤ 100) ∧
    (∀ (v : VAD) (xs : List ℚ),
       (processFrame v xs).1.frameIndex = v.frameIndex ∧
       (processFrame v xs).2.frameIndex = v.frameIndex + 1) ∧
    (∀ (cfg : VADConfig) (frames : List (List ℚ)),
       (run (create cfg) frames).frameIndex = frames.length) ∧
    (∀ cfg : VADConfig, (create cfg).frameIndex = 0) ∧
    (∀ v : VAD, (VoiceActivityDetector.reset v).frameIndex = 0) := by
  refine ⟨?_, ?_, fun v xs => ⟨rfl, rfl⟩, ?_, fun cfg => rfl, fun v => rfl⟩
  · intro v xs hv
    exact pushEnergy_length_le v.energyHistory _ hv
  · intro cfg frames
    exact run_history_bound frames (create cfg) (by simp [create])
  · intro cfg frames
    rw [run_frameIndex frames (create cfg)]
    simp [create]

/-- Witness for C9 at a concrete input: one frame through a fresh detector
keeps the history within the bound. -/
theorem vad_history_bound_and_frameIndex_witness :
    (processFrame (create vcfgBase) [1]).2.energyHistory.length ≤ 100 :=
  vad_history_bound_and_frameIndex.1 (create vcfgBase) [1] (by simp [create])

/-- Claim C10: `updateState` never adds to `totalSilenceDuration` — the
speech-to-silence branch clears `state.isSpeech` before the accumulation
guard reads it — so on every run from a fresh detector the field stays
exactly 0, while `silenceFrames` does advance on every silence frame. -/
theorem vad_totalSilenceDuration_stays_zero :
    (∀ (st : VADState) (b : Bool) (now : ℚ),
       (updateState st b now).totalSilenceDuration = st.totalSilenceDuration) ∧
    (∀ (st : VADState) (now : ℚ),
       (updateState st false now).silenceFrames = st.silenceFrames + 1) ∧
    (∀ (cfg : VADConfig) (frames : List (List ℚ)),
       (run (create cfg) frames).state.totalSilenceDuration = 0) :=
  ⟨updateState_totalSilence, updateState_silenceFrames,
   fun cfg frames => (run_totalSilence frames (create cfg)).trans rfl⟩

/-! ## Claims C2, C5, C6 — the session orchestrator -/

open AudioSessionManager

theorem find_replace (l : List AudioSession) (s2 : AudioSession) (sid : ℕ)
    (hid : s2.id = sid) :
    ∀ _ : (l.find? (fun t => t.id == sid)).isSome,
      ((l.map (fun t => if t.id == s2.id then s2 else t)).find?
        (fun t => t.id == sid)) = some s2 := by
  induction l with
  | nil => intro hsome; simp [List.find?] at hsome
  | cons a l ih =>
    intro hsome
    by_cases ha : a.id = sid
    · have h1 : (if a.id == s2.id then s2 else a) = s2 := by
        rw [if_pos]
        rw [beq_iff_eq, hid, ha]
      simp only [List.map_cons, h1]
      exact List.find?_cons_of_pos _ (by rw [beq_iff_eq, hid])
    · have h1 : (if a.id == s2.id then s2 else a) = a := by
        rw [if_neg]
        rw [beq_iff_eq, hid]
        exact ha
      have h2 : (a.id == sid) = false := by
        rw [beq_eq_false_iff_ne]
        exact ha
      simp only [List.map_cons, h1]
      simp only [List.find?_cons, h2]
      apply ih
      simp only [List.find?_cons, h2] at hsome
      exact hsome

theorem findSession_setSession (M : Manager) (s2 : AudioSession) (sid : ℕ)
    (hid : s2.id = sid) (hsome : (findSession M sid).isSome) :
    findSession (setSession M s2) sid = some s2 :=
  find_replace M.sessions s2 sid hid hsome

theorem setSession_setSession (M : Manager) (s2 : AudioSession) :
    setSession (setSession M s2) s2 = setSession M s2 := by
  simp only [setSession, List.map_map]
  congr 1
  apply List.map_congr_left
  intro t _
  simp only [Function.comp]
  by_cases h : t.id = s2.id
  · simp [h]
  · simp [h]

theorem calcFinal_restamp (s : AudioSession) (now : ℚ) :
    calculateFinalStatistics
      { calculateFinalStatistics
          { s with isRecording := false, endTime := some now, isActive := false } with
        isRecording := false, endTime := some now, isActive := false } =
    calculateFinalStatistics
      { s with isRecording := false, endTime := some now, isActive := false } := rfl

/-- Counterexample to claim C2: stopping the same session twice at later
wall-clock instants is not a no-op and does not reproduce the first call's
finalized statistics — the second call re-stamps `endTime` (1000 → 2000)
and recomputes `totalDuration` (1000 → 2000). -/
theorem stopSession_not_noop_counterexample :
    (stopSession mgrA 1 1000).map
        (fun m => (findSession m 1).map (fun s => (s.endTime, s.statistics.totalDuration)))
      = .ok (some (some 1000, 1000)) ∧
    ((stopSession mgrA 1 1000).bind (fun m => stopSession m 1 2000)).map
        (fun m => (findSession m 1).map (fun s => (s.endTime, s.statistics.totalDuration)))
      = .ok (some (some 2000, 2000)) := by
  constructor
  · with_unfolding_all rfl
  · with_unfolding_all rfl

/-- Claim C2 as amended: `stopSession` on a known session raises no error
whether or not the session is Active, but it is not a no-op — every call
re-stamps `endTime` with the current clock and recomputes the finalized
statistics from it (`totalDuration = now - startTime`), so two calls agree
exactly when they observe the same clock: at a fixed instant a second stop
returns the same manager state. -/
theorem stopSession_restamps_not_noop :
    (∀ (m : Manager) (sid : ℕ) (now : ℚ),
       (stopSession m sid now).bind (fun m2 => stopSession m2 sid now) =
         stopSession m sid now) ∧
    (∀ (m : Manager) (sid : ℕ) (now : ℚ) (s : AudioSession),
       findSession m sid = some s →
       ∃ m2 : Manager, stopSession m sid now = .ok m2 ∧
         ∃ s2 : AudioSession, findSession m2 sid = some s2 ∧
           s2.endTime = some now ∧ s2.isActive = false ∧
           s2.statistics.totalDuration = now - s.startTime) := by
  have key : ∀ (m : Manager) (sid : ℕ) (now : ℚ) (s : AudioSession),
      findSession m sid = some s →
      stopSession m sid now =
        .ok (setSession { m with mediaStream := false, silenceTimer := false }
          (calculateFinalStatistics
            { s with isRecording := false, endTime := some now, isActive := false })) := by
    intro m sid now s hfind
    simp only [stopSession, hfind]
  have hfind2 : ∀ (m : Manager) (sid : ℕ) (now : ℚ) (s : AudioSession),
      findSession m sid = some s →
      findSession
        (setSession { m with mediaStream := false, silenceTimer := false }
          (calculateFinalStatistics
            { s with isRecording := false, endTime := some now, isActive := false })) sid =
      some (calculateFinalStatistics
        { s with isRecording := false, endTime := some now, isActive := false }) := by
    intro m sid now s hfind
    have hfind' : m.sessions.find? (fun t => t.id == sid) = some s := hfind
    have hsid : (s.id == sid) = true := by
      have h := List.find?_some hfind'
      simpa using h
    apply findSession_setSession
    · exact beq_iff_eq.mp hsid
    · show (findSession m sid).isSome
      rw [hfind]
      rfl
  constructor
  · intro m sid now
    cases hfind : findSession m sid with
    | none => simp [stopSession, hfind, Except.bind]
    | some s =>
      rw [key m sid now s hfind]
      show stopSession _ sid now = _
      rw [key _ sid now _ (hfind2 m sid now s hfind)]
      rw [calcFinal_restamp]
      congr 1
      show setSession (setSession { m with mediaStream := false, silenceTimer := false } _) _ = _
      rw [setSession_setSession]
  · intro m sid now s hfind
    refine ⟨_, key m sid now s hfind, _, hfind2 m sid now s hfind, rfl, rfl, rfl⟩

/-- Witness for the amended C2 at a concrete manager: stopping the active
session 1 twice at instant 500 equals stopping it once, and the single
stop stamps `endTime = 500` with `totalDuration = 500`. -/
theorem stopSession_restamps_not_noop_witness :
    ((stopSession mgrA 1 500).bind (fun m2 => stopSession m2 1 500) =
       stopSession mgrA 1 500) ∧
    ∃ m2 : Manager, stopSession mgrA 1 500 = .ok m2 ∧
      ∃ s2 : AudioSession, findSession m2 1 = some s2 ∧
        s2.endTime = some 500 ∧ s2.isActive = false ∧
        s2.statistics.totalDuration = 500 - sessActive.startTime :=
  ⟨stopSession_restamps_not_noop.1 mgrA 1 500,
   stopSession_restamps_not_noop.2 mgrA 1 500 sessActive rfl⟩

/-- Claim C5: `startSession` fails fast on an unknown id or an already
Active session (leaving the manager unchanged), and on a capture or
collaborator failure during start the session ends up with `isActive` and
`isRecording` both false while the error is surfaced to the caller. -/
theorem startSession_fail_fast :
    (∀ (m : Manager) (sid : ℕ) (c st : Bool),
       findSession m sid = none →
       startSession m sid c st = (m, some .notFound)) ∧
    (∀ (m : Manager) (sid : ℕ) (c st : Bool) (s : AudioSession),
       findSession m sid = some s → s.isActive = true →
       startSession m sid c st = (m, some .alreadyActive)) ∧
    (∀ (m : Manager) (sid : ℕ) (c st : Bool) (s : AudioSession),
       findSession m sid = some s → s.isActive = false → (c = false ∨ st = false) →
       (startSession m sid c st).2.isSome ∧
       ∃ s2 : AudioSession, findSession (startSession m sid c st).1 sid = some s2 ∧
         s2.isActive = false ∧ s2.isRecording = false) := by
  refine ⟨?_, ?_, ?_⟩
  · intro m sid c st hfind
    simp [startSession, hfind]
  · intro m sid c st s hfind hact
    simp [startSession, hfind, hact]
  · intro m sid c st s hfind hact hfail
    have hfind' : m.sessions.find? (fun t => t.id == sid) = some s := hfind
    have hsid : (s.id == sid) = true := by
      have h := List.find?_some hfind'
      simpa using h
    have hsome : (findSession m sid).isSome := by rw [hfind]; rfl
    cases c with
    | false =>
      simp only [startSession, hfind, hact, Bool.false_eq_true, if_neg, if_false]
      refine ⟨rfl, _, findSession_setSession m _ sid (beq_iff_eq.mp hsid) hsome, rfl, rfl⟩
    | true =>
      cases st with
      | false =>
        simp only [startSession, hfind, hact, if_false, if_true]
        refine ⟨rfl, _,
          findSession_setSession { m with mediaStream := true } _ sid
            (beq_iff_eq.mp hsid) (by rw [show findSession { m with mediaStream := true } sid = findSession m sid from rfl, hfind]; rfl),
          rfl, rfl⟩
      | true =>
        rcases hfail with h | h <;> exact absurd h (by simp)

/-- Witness for C5 at concrete managers: an unknown id and a double start
fail fast, and a failed capture leaves the created session non-Active. -/
theorem startSession_fail_fast_witness :
    startSession mgrC 2 true true = (mgrC, some .notFound) ∧
    startSession mgrA 1 true true = (mgrA, some .alreadyActive) ∧
    ((startSession mgrC 1 false true).2.isSome ∧
      ∃ s2 : AudioSession, findSession (startSession mgrC 1 false true).1 1 = some s2 ∧
        s2.isActive = false ∧ s2.isRecording = false) :=
  ⟨startSession_fail_fast.1 mgrC 2 true true rfl,
   startSession_fail_fast.2.1 mgrA 1 true true sessActive rfl rfl,
   startSession_fail_fast.2.2 mgrC 1 false true sessCreated rfl rfl (Or.inl rfl)⟩

/-- Counterexample to claim C6: a session that became Active, was stopped,
and is started again on the same id becomes Active a second time — stopped
is not a terminal state for the id and no new session id is required. -/
theorem stopped_session_restart_counterexample :
    (findSession (startSession mgrC 1 true true).1 1).map (·.isActive) = some true ∧
    ((stopSession (startSession mgrC 1 true true).1 1 50).map (fun m2 =>
        ((startSession m2 1 true true).2,
         (findSession (startSession m2 1 true true).1 1).map (·.isActive))))
      = .ok (none, some true) := by
  with_unfolding_all decide

/-- Claim C6 as amended: `startSession` rejects only unknown ids and
currently-Active sessions; any known non-Active session — including one
already stopped — starts successfully and becomes Active again, so
`isActive` can transition to true any number of times for the same id. -/
theorem startSession_restarts_stopped_sessions :
    (∀ (m : Manager) (sid : ℕ) (c st : Bool),
       ((startSession m sid c st).2 = some .notFound ↔ findSession m sid = none)) ∧
    (∀ (m : Manager) (sid : ℕ) (c st : Bool) (s : AudioSession),
       findSession m sid = some s →
       ((startSession m sid c st).2 = some .alreadyActive ↔ s.isActive = true)) ∧
    (∀ (m : Manager) (sid : ℕ) (s : AudioSession),
       findSession m sid = some s → s.isActive = false →
       (startSession m sid true true).2 = none ∧
       ∃ s2 : AudioSession, findSession (startSession m sid true true).1 sid = some s2 ∧
         s2.isActive = true) := by
  refine ⟨?_, ?_, ?_⟩
  · intro m sid c st
    cases hfind : findSession m sid with
    | none => simp [startSession, hfind]
    | some s =>
      cases hact : s.isActive with
      | true => simp [startSession, hfind, hact]
      | false =>
        cases c <;> cases st <;> simp [startSession, hfind, hact]
  · intro m sid c st s hfind
    cases hact : s.isActive with
    | true => simp [startSession, hfind, hact]
    | false =>
      cases c <;> cases st <;> simp [startSession, hfind, hact]
  · intro m sid s hfind hact
    have hfind' : m.sessions.find? (fun t => t.id == sid) = some s := hfind
    have hsid : (s.id == sid) = true := by
      have h := List.find?_some hfind'
      simpa using h
    have hsome2 : (findSession { m with mediaStream := true } sid).isSome := by
      rw [show findSession { m with mediaStream := true } sid = findSession m sid from rfl,
        hfind]
      rfl
    simp only [startSession, hfind, hact, if_true, if_false]
    exact ⟨rfl, _,
      findSession_setSession { m with mediaStream := true } _ sid
        (beq_iff_eq.mp hsid) hsome2, rfl⟩

/-- Witness for the amended C6 at a concrete manager: the created session
1 is unknown under id 2, rejected while Active, and restartable when
non-Active. -/
theorem startSession_restarts_stopped_sessions_witness :
    ((startSession mgrC 2 true true).2 = some .notFound ↔ findSession mgrC 2 = none) ∧
    ((startSession mgrA 1 true true).2 = some .alreadyActive ↔ sessActive.isActive = true) ∧
    ((startSession mgrC 1 true true).2 = none ∧
      ∃ s2 : AudioSession, findSession (startSession mgrC 1 true true).1 1 = some s2 ∧
        s2.isActive = true) :=
  ⟨startSession_restarts_stopped_sessions.1 mgrC 2 true true,
   startSession_restarts_stopped_sessions.2.1 mgrA 1 true true sessActive rfl,
   startSession_restarts_stopped_sessions.2.2 mgrC 1 sessCreated rfl rfl⟩
